import Mathlib

/-
Verification development for the ComfyUI-Audio-Visualizer frontend
(`web/audio_visualizer.js`).  The `AudioVisualizer` class is shallowly
embedded: its per-frame arithmetic becomes pure Lean functions over ℚ/ℕ,
and the stateful connect / cleanup / render-loop logic becomes explicit
state-passing functions over a `Sys` record that models the visualizer
instance, the browser's pending animation-frame requests, and the audio
elements (with their `_audioVisualizerSource` splice markers).
-/

set_option autoImplicit false

namespace AudioVisualizer

/-! ## The Web-Audio analyser contract and the buffer sizing in `draw` -/

/-- Platform contract of `AnalyserNode`: `frequencyBinCount` is half of
`fftSize`. -/
def frequencyBinCount (fftSize : Nat) : Nat := fftSize / 2

/-- `draw` (audio_visualizer.js:1085-1086) sets
`bufferLength = analyser.frequencyBinCount` and allocates
`dataArray = new Uint8Array(bufferLength)`; this single buffer is handed to
every renderer, including `drawWave`. -/
def drawBufferLength (fftSize : Nat) : Nat := frequencyBinCount fftSize

/-- Platform contract of `AnalyserNode.getByteTimeDomainData`: it copies
`min(fftSize, array.length)` bytes into the supplied array. -/
def getByteTimeDomainDataCount (fftSize bufLen : Nat) : Nat := min fftSize bufLen

/-- Platform contract of `AnalyserNode.getByteFrequencyData`: it copies
`min(frequencyBinCount, array.length)` bytes into the supplied array. -/
def getByteFrequencyDataCount (fftSize bufLen : Nat) : Nat :=
  min (frequencyBinCount fftSize) bufLen

/-- Valid analyser FFT sizes: powers of two in 128–32768. -/
def ValidFftSize (n : Nat) : Prop := 128 ≤ n ∧ n ≤ 32768 ∧ ∃ k, n = 2 ^ k

/-! ## `drawCircular` sampling (audio_visualizer.js:1193-1198) -/

/-- `const step = Math.floor(bufferLength / barsToDraw)` with
`barsToDraw = 180`. -/
def circularStep (bufferLength : Nat) : Nat := bufferLength / 180

/-- The data indices `i * step` probed by the `for` loop in `drawCircular`
for `i = 0 .. 179`. -/
def circularSampleIndices (bufferLength : Nat) : List Nat :=
  (List.range 180).map (fun i => i * circularStep bufferLength)

/-! ## Renderer arithmetic (pure per-sample maps) -/

/-- `drawWave` (audio_visualizer.js:1117-1119): for each sample byte `d`,
`v = d / 128.0` and the plotted ordinate is `y = (v * HEIGHT) / 2`. -/
def waveYs (data : List Nat) (HEIGHT : ℚ) : List ℚ :=
  data.map (fun (d : Nat) => (d : ℚ) / 128 * HEIGHT / 2)

/-- `drawBars` (audio_visualizer.js:1161): `barHeight = (dataArray[i] / 255)
* HEIGHT`. -/
def barHeights (data : List Nat) (HEIGHT : ℚ) : List ℚ :=
  data.map (fun (d : Nat) => (d : ℚ) / 255 * HEIGHT)

/-- `drawCircular` (audio_visualizer.js:1198-1199): the radial bar lengths
`(dataArray[i*step] / 255) * (min(WIDTH, HEIGHT) / 3)` for the 180 sampled
bins (out-of-range reads modelled as 0, cf. the in-range theorem). -/
def circularBarLengths (data : List Nat) (WIDTH HEIGHT : ℚ) : List ℚ :=
  (List.range 180).map (fun i =>
    ((data.getD (i * circularStep data.length) 0 : ℚ) / 255) * (min WIDTH HEIGHT / 3))

/-! ## `setBackgroundOpacity` (audio_visualizer.js:620-626) -/

/-- The JS values that can reach `setBackgroundOpacity(value)`: a finite
number, `NaN` (e.g. from `parseFloat` on garbage), or `undefined`. -/
inductive JSVal where
  | num (q : ℚ)
  | nan
  | undef
deriving DecidableEq, Repr

/-- JS `value || 0`: falsy values (`0`, `NaN`, `undefined`) become `0`. -/
def orZero : JSVal → ℚ
  | .num q => if q = 0 then 0 else q
  | .nan => 0
  | .undef => 0

/-- `this.backgroundOpacity = Math.max(0, Math.min(0.5, value || 0))`. -/
def setBackgroundOpacityStored (value : JSVal) : ℚ :=
  max 0 (min (1 / 2) (orZero value))

/-! ## `renderBackground` (audio_visualizer.js:641-668) -/

/-- Rendering mode enum (`VISUALIZATION_MODES`). -/
inductive Mode where
  | wave
  | bars
  | circular
deriving DecidableEq, Repr

/-- Abstracted canvas-2D operations a frame emits, in order. -/
inductive DrawEvent where
  | fillBackground (color : String)
  | imageOverlay (alpha : ℚ)
  | gradientRadial (alpha : ℚ)
  | gradientLinear (alpha : ℚ)
  | rendererDispatch (mode : Mode)
deriving DecidableEq, Repr

/-- `this.ctx.globalAlpha = Math.max(0, Math.min(1, this.backgroundOpacity
+ 0.05))` (audio_visualizer.js:647). -/
def imageOverlayAlpha (backgroundOpacity : ℚ) : ℚ :=
  max 0 (min 1 (backgroundOpacity + 1 / 20))

/-! ## `getAudioUrl` path splitting (audio_visualizer.js:822-833) -/

/-- JS `String.prototype.lastIndexOf` for a single character, on a string
viewed as a list of characters (`none` plays the role of `-1`). -/
def lastIndexOf (c : Char) : List Char → Option Nat
  | [] => none
  | a :: rest =>
    match lastIndexOf c rest with
    | some i => some (i + 1)
    | none => if a = c then some 0 else none

/-- The `(subfolder, filename)` pair computed by `getAudioUrl`:
`folderSeparator = audioValue.lastIndexOf("/")`; if `-1`, the filename is
the whole value and the subfolder is empty; otherwise
`subfolder = audioValue.substring(0, folderSeparator)` and
`filename = audioValue.substring(folderSeparator + 1)`. -/
def getAudioUrlSplit (audioValue : List Char) : List Char × List Char :=
  match lastIndexOf '/' audioValue with
  | none => ([], audioValue)
  | some i => (audioValue.take i, audioValue.drop (i + 1))

/-! ## State machine: visualizer instance, browser, audio elements -/

/-- State of one `<audio>` element as seen by the visualizer.  `splices`
counts how many times `createMediaElementSource` was invoked on it over
its lifetime; `hasVisMarker` is the `_audioVisualizerSource` expando
(audio_visualizer.js:914-917). -/
structure AudioElem where
  paused : Bool
  readyState : Nat
  hasVisMarker : Bool
  splices : Nat
  srcCleared : Bool
deriving DecidableEq, Repr

/-- `createAnalyser()` result: `fftSize` and `smoothingTimeConstant`
(audio_visualizer.js:905-907). -/
structure Analyser where
  fftSize : Nat
  smoothingTimeConstant : ℚ
deriving DecidableEq, Repr

/-- Mutable fields of the `AudioVisualizer` instance that the connect /
cleanup / render-loop paths read and write.  `source`, `hasCanvas`,
`hasCtx` and `ctxOpen` are nullity/liveness of `this.source`,
`this.canvas`, `this.ctx` and `this.audioContext` (open means: non-null
and not in the "closed" state). -/
structure Visualizer where
  isOfficialNode : Bool
  visualizerEnabled : Bool
  mode : Mode
  fftSize : Nat
  backgroundColor : String
  backgroundOpacity : ℚ
  hasBackgroundImage : Bool
  audioElement : Option Nat
  source : Bool
  analyser : Option Analyser
  hasCanvas : Bool
  hasCtx : Bool
  ctxOpen : Bool
  isInitialized : Bool
  animationFrameId : Option Nat
  canvasW : Nat
  canvasH : Nat
deriving DecidableEq, Repr

/-- The browser's animation-frame machinery: the multiset of pending
request tokens and the next token to hand out (browsers return positive
integers, so tokens start at 1 and `!this.animationFrameId` is
`animationFrameId = none`). -/
structure Browser where
  pending : List Nat
  nextToken : Nat
deriving DecidableEq, Repr

/-- `requestAnimationFrame`: registers a fresh token. -/
def requestFrame (b : Browser) : Nat × Browser :=
  (b.nextToken, ⟨b.nextToken :: b.pending, b.nextToken + 1⟩)

/-- `cancelAnimationFrame(t)`: removes the token if pending. -/
def cancelFrame (b : Browser) (t : Nat) : Browser :=
  ⟨b.pending.erase t, b.nextToken⟩

/-- Whole-system state: the visualizer instance, the browser, the audio
elements (indexed by identity), the live layout rect of the canvas
(`getBoundingClientRect`), and the log of draw events emitted so far. -/
structure Sys where
  vis : Visualizer
  browser : Browser
  elems : Nat → AudioElem
  rectW : ℚ
  rectH : ℚ
  log : List DrawEvent

/-- Pointwise update of the element table. -/
def setElem (f : Nat → AudioElem) (i : Nat) (e : AudioElem) : Nat → AudioElem :=
  fun j => if j = i then e else f j

/-- `stopVisualization` (audio_visualizer.js:1059-1064): cancel the pending
frame request, if any, and null the handle. -/
def stopVisualization (s : Sys) : Sys :=
  match s.vis.animationFrameId with
  | some t =>
    { s with vis := { s.vis with animationFrameId := none },
             browser := cancelFrame s.browser t }
  | none => s

/-- The background pass of a frame, `renderBackground`
(audio_visualizer.js:641-668): solid fill, then either the image overlay at
`clamp(backgroundOpacity + 0.05, 0, 1)`, or — when no image but positive
opacity — a radial plus a linear gradient under
`globalAlpha = backgroundOpacity`. -/
def renderBackground (v : Visualizer) : List DrawEvent :=
  DrawEvent.fillBackground v.backgroundColor ::
  (if v.hasBackgroundImage then
    [DrawEvent.imageOverlay (imageOverlayAlpha v.backgroundOpacity)]
  else if 0 < v.backgroundOpacity then
    [DrawEvent.gradientRadial v.backgroundOpacity,
     DrawEvent.gradientLinear v.backgroundOpacity]
  else [])

/-- Assignment to `canvas.width` / `canvas.height` truncates the float to
an integer. -/
def jsCanvasDim (q : ℚ) : Nat := q.floor.toNat

/-- The resize step of `draw` (audio_visualizer.js:1075-1081): adopt the
live rect only when both dimensions are positive and differ from the
current backing size; height is floored at 200. -/
def resizeCanvas (v : Visualizer) (rectW rectH : ℚ) : Visualizer :=
  if 0 < rectW ∧ 0 < rectH then
    if (v.canvasW : ℚ) ≠ rectW ∨ (v.canvasH : ℚ) ≠ rectH then
      { v with canvasW := jsCanvasDim rectW,
               canvasH := jsCanvasDim (max 200 rectH) }
    else v
  else v

/-- One body of `draw` (audio_visualizer.js:1069-1101): bail out when ctx,
analyser or canvas is missing; otherwise resize, paint the background,
dispatch the renderer for the current mode, and schedule the next frame. -/
def draw (s : Sys) : Sys :=
  if s.vis.hasCtx ∧ s.vis.analyser.isSome ∧ s.vis.hasCanvas then
    let v := resizeCanvas s.vis s.rectW s.rectH
    let r := requestFrame s.browser
    { s with vis := { v with animationFrameId := some r.1 },
             browser := r.2,
             log := s.log ++ renderBackground v ++ [DrawEvent.rendererDispatch v.mode] }
  else s

/-- `startVisualization` (audio_visualizer.js:1047-1054): guard on
initialization, analyser and ctx; cancel any running loop; draw. -/
def startVisualization (s : Sys) : Sys :=
  if s.vis.isInitialized ∧ s.vis.analyser.isSome ∧ s.vis.hasCtx then
    draw (stopVisualization s)
  else s

/-- The browser firing the pending animation-frame callback: the token
leaves the pending set and the registered `() => this.draw()` runs. -/
def tick (s : Sys) : Sys :=
  match s.vis.animationFrameId with
  | some t =>
    if t ∈ s.browser.pending then
      draw { s with browser := { s.browser with pending := s.browser.pending.erase t } }
    else s
  | none => s

/-- `cleanup` (audio_visualizer.js:1258-1288): stop the loop, disconnect
and null the source, close the audio context, drop the analyser, clear
`isInitialized`; official nodes only drop the element reference, while
custom nodes pause the internally created `Audio` object, blank its `src`,
and drop it. -/
def cleanup (s : Sys) : Sys :=
  let s1 := stopVisualization s
  let s2 := { s1 with vis := { s1.vis with
                source := false,
                ctxOpen := false,
                analyser := none,
                isInitialized := false } }
  if s2.vis.isOfficialNode then
    { s2 with vis := { s2.vis with audioElement := none } }
  else
    match s2.vis.audioElement with
    | some eid =>
      { s2 with vis := { s2.vis with audioElement := none },
                elems := setElem s2.elems eid
                  { s2.elems eid with paused := true, srcCleared := true } }
    | none => s2

/-- The `initContext` closure inside `connectToAudioElement`
(audio_visualizer.js:888-979): replace the audio context, create an
analyser with the configured `fftSize` and smoothing 0.85, splice the
element exactly when no `_audioVisualizerSource` marker exists (recording
the marker), otherwise reuse the marked source (disconnect + reconnect);
mark initialized and start the loop when the element is playing. -/
def initContext (s : Sys) (eid : Nat) : Sys :=
  let s1 := { s with vis := { s.vis with
                ctxOpen := true,
                analyser := some ⟨s.vis.fftSize, 17 / 20⟩ } }
  let s2 :=
    if (s1.elems eid).hasVisMarker then
      { s1 with vis := { s1.vis with source := true } }
    else
      { s1 with vis := { s1.vis with source := true },
                elems := setElem s1.elems eid
                  { s1.elems eid with
                      hasVisMarker := true,
                      splices := (s1.elems eid).splices + 1 } }
  let s3 := { s2 with vis := { s2.vis with isInitialized := true } }
  if (s3.elems eid).paused then s3 else startVisualization s3

/-- `connectToAudioElement` (audio_visualizer.js:863-1000): no-op when
disabled; when already bound to the same element and initialized, only
restart the loop if it is not running; otherwise clean up any binding to a
different element, record the new element, and run `initContext` when the
element has loaded enough data (`readyState >= 2`; otherwise the work is
deferred to a `loadeddata` listener, i.e. no further synchronous state
change). -/
def connectToAudioElement (s : Sys) (eid : Nat) : Sys :=
  if s.vis.visualizerEnabled then
    if s.vis.audioElement = some eid ∧ s.vis.isInitialized then
      if s.vis.animationFrameId = none then startVisualization s else s
    else
      let s1 := if s.vis.audioElement ≠ some eid then cleanup s else s
      let s2 := { s1 with vis := { s1.vis with audioElement := some eid } }
      if 2 ≤ (s2.elems eid).readyState then initContext s2 eid else s2
  else s

/-- Render-loop sanity: the browser holds at most one pending frame
request for this visualizer, and any pending token is the one recorded in
`animationFrameId`. -/
def FrameInv (s : Sys) : Prop :=
  s.browser.pending.length ≤ 1 ∧
  ∀ t ∈ s.browser.pending, s.vis.animationFrameId = some t

/-! ## Concrete sample states (for evaluating the model) -/

/-- A visualizer freshly constructed for an official node, default config
(`mode` default for official nodes is Bars, `fftSize` 2048, background
color `#09090b`, opacity 0.2, canvas 800×200). -/
def baseVis : Visualizer :=
  { isOfficialNode := true
    visualizerEnabled := true
    mode := Mode.bars
    fftSize := 2048
    backgroundColor := "#09090b"
    backgroundOpacity := 1 / 5
    hasBackgroundImage := false
    audioElement := none
    source := false
    analyser := none
    hasCanvas := true
    hasCtx := true
    ctxOpen := false
    isInitialized := false
    animationFrameId := none
    canvasW := 800
    canvasH := 200 }

/-- A playing, fully loaded, never-spliced audio element. -/
def baseElem : AudioElem :=
  { paused := false
    readyState := 4
    hasVisMarker := false
    splices := 0
    srcCleared := false }

/-- An idle whole-system state around `baseVis`. -/
def baseSys : Sys :=
  { vis := baseVis
    browser := { pending := [], nextToken := 1 }
    elems := fun _ => baseElem
    rectW := 0
    rectH := 0
    log := [] }

/-- A state right after a successful attach of element 0: initialized,
spliced, analyser live, loop not yet running. -/
def connectedSys : Sys :=
  { baseSys with
    vis := { baseVis with
      audioElement := some 0
      source := true
      analyser := some ⟨2048, 17 / 20⟩
      ctxOpen := true
      isInitialized := true }
    elems := fun _ => { baseElem with hasVisMarker := true, splices := 1 } }

/-- A custom (non-official) node bound to the internally created audio
element 0, which is currently playing. -/
def customSys : Sys :=
  { baseSys with
    vis := { baseVis with isOfficialNode := false, audioElement := some 0 } }

/-- A drawable state whose backing canvas has width 0 (reachable: the
resize step truncates a fractional rect width like 0.5 to 0) and whose
live rect is currently non-positive. -/
def zeroWidthSys : Sys :=
  { baseSys with
    vis := { baseVis with canvasW := 0, analyser := some ⟨2048, 17 / 20⟩ } }

/-! # Theorems -/

/-! ## C1: analyser buffer sizes as used by the renderers -/

/-- C1, counterexample: at the valid `fftSize = 2048`, the buffer `draw`
allocates (and `drawWave` reads time-domain data into) has 1024 bytes, and
the platform fills `min(fftSize, length) = 1024` of them — not the claimed
`fftSize = 2048` bytes. -/
theorem wave_time_buffer_counterexample :
    ValidFftSize 2048 ∧
    drawBufferLength 2048 = 1024 ∧
    getByteTimeDomainDataCount 2048 (drawBufferLength 2048) = 1024 ∧
    (1024 : Nat) ≠ 2048 :=
  ⟨⟨by norm_num, by norm_num, 11, by norm_num⟩, rfl, rfl, by norm_num⟩

/-- C1, amended: for every valid `fftSize`, the frequency-domain read
fills exactly `fftSize / 2` bytes, and the time-domain read used by the
Wave renderer also fills exactly `fftSize / 2` bytes, because `draw` sizes
its single data buffer at `frequencyBinCount` for both domains. -/
theorem buffer_lengths_amended (n : Nat) (h : ValidFftSize n) :
    drawBufferLength n = n / 2 ∧
    getByteFrequencyDataCount n (drawBufferLength n) = n / 2 ∧
    getByteTimeDomainDataCount n (drawBufferLength n) = n / 2 := by
  refine ⟨rfl, ?_, ?_⟩
  · simp [getByteFrequencyDataCount, drawBufferLength, frequencyBinCount]
  · simpa [getByteTimeDomainDataCount, drawBufferLength, frequencyBinCount] using
      min_eq_right (Nat.div_le_self n 2)

/-- C1 amended, witness at `fftSize = 2048`. -/
theorem buffer_lengths_amended_witness :
    ValidFftSize 2048 ∧
    (drawBufferLength 2048 = 2048 / 2 ∧
     getByteFrequencyDataCount 2048 (drawBufferLength 2048) = 2048 / 2 ∧
     getByteTimeDomainDataCount 2048 (drawBufferLength 2048) = 2048 / 2) :=
  ⟨⟨by norm_num, by norm_num, 11, by norm_num⟩,
   buffer_lengths_amended 2048 ⟨by norm_num, by norm_num, 11, by norm_num⟩⟩

/-! ## C3: circular sampling stays in range -/

/-- C3: `drawCircular` samples exactly 180 bins at stride
`floor(bufferLength / 180)`; for every `bufferLength ≥ 1` all sampled
indices are strictly below `bufferLength`, and `bufferLength = 1024` gives
stride 5. -/
theorem circular_sampling_in_range (bufferLength : Nat) (h : 1 ≤ bufferLength) :
    (circularSampleIndices bufferLength).length = 180 ∧
    (∀ j ∈ circularSampleIndices bufferLength, j < bufferLength) ∧
    circularStep 1024 = 5 := by
  refine ⟨by simp [circularSampleIndices], ?_, by norm_num [circularStep]⟩
  intro j hj
  simp only [circularSampleIndices, List.mem_map, List.mem_range] at hj
  obtain ⟨i, hi, rfl⟩ := hj
  by_cases hq : circularStep bufferLength = 0
  · simpa [hq] using h
  · have h1 : 1 ≤ circularStep bufferLength := Nat.one_le_iff_ne_zero.2 hq
    have h179 : i ≤ 179 := Nat.lt_succ_iff.1 hi
    have hle : i * circularStep bufferLength ≤ 179 * circularStep bufferLength :=
      Nat.mul_le_mul h179 (le_refl _)
    have hdm : 180 * circularStep bufferLength ≤ bufferLength := by
      rw [Nat.mul_comm]
      simpa [circularStep] using Nat.div_mul_le_self bufferLength 180
    exact lt_of_le_of_lt hle (by omega)

/-- C3, witness at `bufferLength = 1024` (the spec's `fftSize = 2048`
scenario). -/
theorem circular_sampling_in_range_witness :
    (1 : Nat) ≤ 1024 ∧
    ((circularSampleIndices 1024).length = 180 ∧
     (∀ j ∈ circularSampleIndices 1024, j < 1024) ∧
     circularStep 1024 = 5) :=
  ⟨by norm_num, circular_sampling_in_range 1024 (by norm_num)⟩

/-! ## C4: background opacity clamping -/

/-- C4: `setBackgroundOpacity` always stores a value in [0, 0.5]; numeric
inputs above 0.5 store 0.5, negative inputs store 0, and `NaN`/absent
inputs store 0. -/
theorem background_opacity_clamped (value : JSVal) :
    (0 ≤ setBackgroundOpacityStored value ∧ setBackgroundOpacityStored value ≤ 1 / 2) ∧
    (∀ q : ℚ, value = JSVal.num q → 1 / 2 < q → setBackgroundOpacityStored value = 1 / 2) ∧
    (∀ q : ℚ, value = JSVal.num q → q < 0 → setBackgroundOpacityStored value = 0) ∧
    ((value = JSVal.nan ∨ value = JSVal.undef) → setBackgroundOpacityStored value = 0) := by
  refine ⟨⟨le_max_left _ _, max_le (by norm_num) (min_le_left _ _)⟩, ?_, ?_, ?_⟩
  · rintro q rfl hq
    have hq0 : ¬ q = 0 := by intro h0; rw [h0] at hq; norm_num at hq
    simp only [setBackgroundOpacityStored, orZero, if_neg hq0]
    rw [min_eq_left (le_of_lt hq), max_eq_right (by norm_num)]
  · rintro q rfl hq
    have hq0 : ¬ q = 0 := ne_of_lt hq
    simp only [setBackgroundOpacityStored, orZero, if_neg hq0]
    rw [min_eq_right (by linarith), max_eq_left (le_of_lt hq)]
  · rintro (rfl | rfl) <;> norm_num [setBackgroundOpacityStored, orZero]

/-- C4, witness: the spec's examples 0.9 ↦ 0.5 and −1 ↦ 0. -/
theorem background_opacity_clamped_witness :
    setBackgroundOpacityStored (JSVal.num (9 / 10)) = 1 / 2 ∧
    setBackgroundOpacityStored (JSVal.num (-1)) = 0 :=
  ⟨(background_opacity_clamped (JSVal.num (9 / 10))).2.1 (9 / 10) rfl (by norm_num),
   (background_opacity_clamped (JSVal.num (-1))).2.2.1 (-1) rfl (by norm_num)⟩

/-! ## C5: silence rendering -/

/-- C5, counterexample: on an all-zero sample buffer `drawWave` plots every
loop ordinate at `y = (0 / 128 * HEIGHT) / 2 = 0` — the top edge — not at
the vertical center `HEIGHT / 2` the claim states (with `HEIGHT = 200`
every plotted `y` is `0`, not `100`). -/
theorem silence_wave_center_counterexample :
    waveYs (List.replicate 4 0) 200 = [0, 0, 0, 0] ∧
    List.replicate 4 ((200 : ℚ) / 2) = [100, 100, 100, 100] ∧
    waveYs (List.replicate 4 0) 200 ≠ List.replicate 4 ((200 : ℚ) / 2) := by
  refine ⟨?_, by norm_num [List.replicate], ?_⟩ <;>
    norm_num [waveYs, List.replicate]

/-- C5, amended: every renderer is a total function (no exception), and on
the all-zero buffer Bars draws only zero-height bars, Circular draws only
zero-length radial lines, and Wave plots a flat line at `y = 0` (the top
edge); the flat *center* line `y = HEIGHT / 2` arises for the buffer of
bytes 128, which is how the platform encodes silence in the time domain. -/
theorem silence_renders_flat (n : Nat) (WIDTH HEIGHT : ℚ) :
    waveYs (List.replicate n 0) HEIGHT = List.replicate n 0 ∧
    barHeights (List.replicate n 0) HEIGHT = List.replicate n 0 ∧
    circularBarLengths (List.replicate n 0) WIDTH HEIGHT = List.replicate 180 0 ∧
    waveYs (List.replicate n 128) HEIGHT = List.replicate n (HEIGHT / 2) := by
  have h0 : ∀ k : Nat, (List.replicate n (0 : Nat)).getD k 0 = 0 := by
    intro k
    rcases lt_or_ge k n with h | h
    · simp [List.getD_eq_getElem?_getD, List.getElem?_replicate, h]
    · simp [List.getD_eq_getElem?_getD, List.getElem?_replicate, not_lt.2 h]
  refine ⟨?_, ?_, ?_, ?_⟩
  · unfold waveYs
    rw [List.map_replicate]
    norm_num
  · unfold barHeights
    rw [List.map_replicate]
    norm_num
  · unfold circularBarLengths
    rw [List.eq_replicate_iff]
    refine ⟨by rw [List.length_map, List.length_range], ?_⟩
    intro b hb
    simp only [List.mem_map, List.mem_range] at hb
    obtain ⟨i, _, rfl⟩ := hb
    rw [h0]
    norm_num
  · unfold waveYs
    rw [List.map_replicate]
    norm_num

/-! ## C9: image overlay opacity -/

/-- C9, counterexample: with the configured opacity 0.2 and a background
image set, the overlay is drawn with `globalAlpha = 0.25`, not 0.2 —
`renderBackground` adds 0.05 before clamping. -/
theorem image_overlay_alpha_counterexample :
    renderBackground { baseVis with hasBackgroundImage := true } =
      [DrawEvent.fillBackground "#09090b", DrawEvent.imageOverlay (1 / 4)] ∧
    (1 / 4 : ℚ) ≠ 1 / 5 := by
  constructor
  · have halpha : imageOverlayAlpha (5 : ℚ)⁻¹ = (4 : ℚ)⁻¹ := by
      unfold imageOverlayAlpha
      rw [min_eq_right (by norm_num), max_eq_right (by norm_num)]
      norm_num
    simp [renderBackground, baseVis, halpha]
  · norm_num

/-- C9, amended: when a background image is set, each frame's background
pass draws the image overlay at the configured opacity *plus 0.05*
(clamped to [0,1]; for stored opacities in [0, 0.5] the clamp never
bites, so the alpha is exactly `backgroundOpacity + 0.05`). -/
theorem image_overlay_alpha_amended (v : Visualizer)
    (himg : v.hasBackgroundImage = true)
    (h0 : 0 ≤ v.backgroundOpacity) (h1 : v.backgroundOpacity ≤ 1 / 2) :
    renderBackground v =
      [DrawEvent.fillBackground v.backgroundColor,
       DrawEvent.imageOverlay (v.backgroundOpacity + 1 / 20)] := by
  have halpha : imageOverlayAlpha v.backgroundOpacity = v.backgroundOpacity + 1 / 20 := by
    unfold imageOverlayAlpha
    rw [min_eq_right (by linarith), max_eq_right (by linarith)]
  simp [renderBackground, himg, halpha]

/-- C9 amended, witness at `baseVis` with an image (opacity 0.2). -/
theorem image_overlay_alpha_amended_witness :
    renderBackground { baseVis with hasBackgroundImage := true } =
      [DrawEvent.fillBackground
         ({ baseVis with hasBackgroundImage := true } : Visualizer).backgroundColor,
       DrawEvent.imageOverlay
         (({ baseVis with hasBackgroundImage := true } : Visualizer).backgroundOpacity + 1 / 20)] :=
  image_overlay_alpha_amended { baseVis with hasBackgroundImage := true }
    rfl (by norm_num [baseVis]) (by norm_num [baseVis])

/-! ## C10: `getAudioUrl` splits at the last slash -/

/-- `lastIndexOf` returns `none` exactly on strings not containing the
character (JS `-1`). -/
theorem lastIndexOf_eq_none_iff (c : Char) (s : List Char) :
    lastIndexOf c s = none ↔ c ∉ s := by
  induction s with
  | nil => simp [lastIndexOf]
  | cons a rest ih =>
    simp only [lastIndexOf, List.mem_cons]
    cases hr : lastIndexOf c rest with
    | some i =>
      have hmem : c ∈ rest := by
        by_contra hc
        rw [ih.2 hc] at hr
        exact Option.noConfusion hr
      simp [hmem]
    | none =>
      have hrest : c ∉ rest := ih.1 hr
      by_cases hac : a = c
      · simp [hac]
      · have hca : ¬ c = a := fun h => hac h.symm
        simp [hac, hrest, hca]

/-- `lastIndexOf` really points at the character, and no later occurrence
exists. -/
theorem lastIndexOf_spec (c : Char) (s : List Char) (i : Nat)
    (h : lastIndexOf c s = some i) :
    s[i]? = some c ∧ c ∉ s.drop (i + 1) := by
  induction s generalizing i with
  | nil => exact Option.noConfusion h
  | cons a rest ih =>
    simp only [lastIndexOf] at h
    cases hr : lastIndexOf c rest with
    | some j =>
      rw [hr] at h
      obtain rfl : j + 1 = i := Option.some.inj h
      obtain ⟨hget, hdrop⟩ := ih j hr
      exact ⟨by simpa using hget, by simpa using hdrop⟩
    | none =>
      rw [hr] at h
      by_cases hac : a = c
      · rw [if_pos hac] at h
        obtain rfl : 0 = i := Option.some.inj h
        refine ⟨by simpa using hac, ?_⟩
        simpa using (lastIndexOf_eq_none_iff c rest).1 hr
      · rw [if_neg hac] at h
        exact Option.noConfusion h

/-- C10: `getAudioUrl` splits a non-empty audio identifier at the last
slash: with a slash present, `subfolder ++ "/" ++ filename` reconstructs
the input and the filename contains no slash (so the split really is at
the *last* slash); with no slash, the subfolder is empty and the filename
is the whole input. -/
theorem getAudioUrl_split_correct (s : List Char) (hne : s ≠ []) :
    (('/') ∈ s →
      (getAudioUrlSplit s).1 ++ '/' :: (getAudioUrlSplit s).2 = s ∧
      ('/') ∉ (getAudioUrlSplit s).2) ∧
    (('/') ∉ s → getAudioUrlSplit s = ([], s)) := by
  constructor
  · intro hmem
    cases hidx : lastIndexOf '/' s with
    | none => exact absurd hmem ((lastIndexOf_eq_none_iff '/' s).1 hidx)
    | some i =>
      obtain ⟨hget, hnot⟩ := lastIndexOf_spec '/' s i hidx
      obtain ⟨hlt, hgetel⟩ := List.getElem?_eq_some.1 hget
      refine ⟨?_, ?_⟩
      · simp only [getAudioUrlSplit, hidx]
        calc s.take i ++ '/' :: s.drop (i + 1) = s.take i ++ s.drop i := by
              rw [List.drop_eq_getElem_cons hlt, hgetel]
          _ = s := List.take_append_drop i s
      · simp only [getAudioUrlSplit, hidx]
        exact hnot
  · intro hmem
    have hnone := (lastIndexOf_eq_none_iff '/' s).2 hmem
    simp [getAudioUrlSplit, hnone]

/-- C10, witness on the identifier `"sub/a.wav"`-shaped input
`['s', 'u', 'b', '/', 'a']`: reconstruction holds. -/
theorem getAudioUrl_split_correct_witness :
    (getAudioUrlSplit ['s', 'u', 'b', '/', 'a']).1 ++
      '/' :: (getAudioUrlSplit ['s', 'u', 'b', '/', 'a']).2 =
      ['s', 'u', 'b', '/', 'a'] :=
  ((getAudioUrl_split_correct ['s', 'u', 'b', '/', 'a'] (by decide)).1 (by decide)).1

/-! ## Frame-loop helper lemmas -/

/-- Neither stopping nor drawing touches the audio elements. -/
theorem stopVisualization_elems (s : Sys) : (stopVisualization s).elems = s.elems := by
  cases hid : s.vis.animationFrameId <;> simp [stopVisualization, hid]

theorem draw_elems (s : Sys) : (draw s).elems = s.elems := by
  unfold draw
  split
  · rfl
  · rfl

theorem startVisualization_elems (s : Sys) : (startVisualization s).elems = s.elems := by
  unfold startVisualization
  split
  · rw [draw_elems, stopVisualization_elems]
  · rfl

/-- `FrameInv` only looks at the pending list and the frame handle. -/
theorem frameInv_congr (s s' : Sys) (hb : s'.browser = s.browser)
    (hid : s'.vis.animationFrameId = s.vis.animationFrameId)
    (h : FrameInv s) : FrameInv s' := by
  constructor
  · rw [hb]
    exact h.1
  · intro t ht
    rw [hb] at ht
    rw [hid]
    exact h.2 t ht

theorem frameInv_of_pending_nil (s : Sys) (h : s.browser.pending = []) : FrameInv s := by
  constructor
  · rw [h]
    exact Nat.zero_le 1
  · intro t ht
    rw [h] at ht
    exact absurd ht (List.not_mem_nil t)

/-- Under the invariant the pending list is empty or exactly the recorded
token. -/
theorem frameInv_pending_cases (s : Sys) (h : FrameInv s) :
    s.browser.pending = [] ∨
    ∃ t, s.vis.animationFrameId = some t ∧ s.browser.pending = [t] := by
  rcases hp : s.browser.pending with _ | ⟨x, xs⟩
  · exact Or.inl rfl
  · have hx := h.2 x (by rw [hp]; exact List.mem_cons_self x xs)
    have hlen := h.1
    rw [hp] at hlen
    cases xs with
    | nil => exact Or.inr ⟨x, hx, rfl⟩
    | cons y ys => simp at hlen

/-- After `stopVisualization` no frame request of this visualizer is
pending. -/
theorem stopVisualization_pending_nil (s : Sys) (h : FrameInv s) :
    (stopVisualization s).browser.pending = [] := by
  rcases frameInv_pending_cases s h with hnil | ⟨t, hidt, hpend⟩
  · cases hid : s.vis.animationFrameId <;>
      simp [stopVisualization, hid, cancelFrame, hnil]
  · simp [stopVisualization, hidt, cancelFrame, hpend]

theorem stopVisualization_frameInv (s : Sys) (h : FrameInv s) :
    FrameInv (stopVisualization s) :=
  frameInv_of_pending_nil _ (stopVisualization_pending_nil s h)

/-- Stopping an already stopped loop is a no-op. -/
theorem stopVisualization_idem (s : Sys) :
    stopVisualization (stopVisualization s) = stopVisualization s := by
  cases hid : s.vis.animationFrameId <;> simp [stopVisualization, hid]

/-- A draw tick scheduled from a quiescent browser restores the
invariant. -/
theorem draw_frameInv (s : Sys) (h : s.browser.pending = []) : FrameInv (draw s) := by
  unfold draw
  split
  · constructor
    · simp [requestFrame, h]
    · intro t ht
      simp [requestFrame, h] at ht
      simp [requestFrame, ht]
  · exact frameInv_of_pending_nil s h

theorem startVisualization_frameInv (s : Sys) (h : FrameInv s) :
    FrameInv (startVisualization s) := by
  unfold startVisualization
  split
  · exact draw_frameInv _ (stopVisualization_pending_nil s h)
  · exact h

theorem tick_frameInv (s : Sys) (h : FrameInv s) : FrameInv (tick s) := by
  rcases hid : s.vis.animationFrameId with _ | t
  · simpa [tick, hid] using h
  · by_cases hmem : t ∈ s.browser.pending
    · have hpend : s.browser.pending = [t] := by
        rcases frameInv_pending_cases s h with hnil | ⟨u, hu, hp⟩
        · rw [hnil] at hmem
          exact absurd hmem (List.not_mem_nil t)
        · rw [hid] at hu
          have hut : u = t := (Option.some.inj hu).symm
          rw [hut] at hp
          exact hp
      have heq : tick s =
          draw { s with browser := { s.browser with pending := s.browser.pending.erase t } } := by
        simp [tick, hid, hmem]
      rw [heq]
      apply draw_frameInv
      simp [hpend]
    · simpa [tick, hid, hmem] using h

/-- `cleanup` leaves the browser exactly as `stopVisualization` does. -/
theorem cleanup_browser (s : Sys) : (cleanup s).browser = (stopVisualization s).browser := by
  unfold cleanup
  dsimp only
  split
  · rfl
  · split
    · rfl
    · rfl

theorem cleanup_frameInv (s : Sys) (h : FrameInv s) : FrameInv (cleanup s) := by
  apply frameInv_of_pending_nil
  rw [cleanup_browser]
  exact stopVisualization_pending_nil s h

theorem initContext_frameInv (s : Sys) (eid : Nat) (h : FrameInv s) :
    FrameInv (initContext s eid) := by
  unfold initContext
  dsimp only
  split <;> (try split) <;>
    first
      | exact frameInv_congr s _ rfl rfl h
      | exact startVisualization_frameInv _ (frameInv_congr s _ rfl rfl h)

theorem connectToAudioElement_frameInv (s : Sys) (eid : Nat) (h : FrameInv s) :
    FrameInv (connectToAudioElement s eid) := by
  unfold connectToAudioElement
  split
  · split
    · split
      · exact startVisualization_frameInv s h
      · exact h
    · dsimp only
      have h1 : FrameInv (if s.vis.audioElement ≠ some eid then cleanup s else s) := by
        split
        · exact cleanup_frameInv s h
        · exact h
      set s1 := if s.vis.audioElement ≠ some eid then cleanup s else s with hs1
      have h2 : FrameInv { s1 with vis := { s1.vis with audioElement := some eid } } :=
        frameInv_congr s1 _ rfl rfl h1
      split
      · exact initContext_frameInv _ eid h2
      · exact h2
  · exact h

/-! ## C7: at most one pending frame request; stop idempotent -/

/-- C7: starting cancels any prior pending frame first, stopping cancels
and is idempotent, and every render-loop operation (stop, start, a frame
tick, attach) preserves the invariant that at most one animation-frame
request of this visualizer is pending — so no two concurrent loops ever
exist on one canvas. -/
theorem render_loop_single_pending (s : Sys) (eid : Nat) (h : FrameInv s) :
    FrameInv (stopVisualization s) ∧
    stopVisualization (stopVisualization s) = stopVisualization s ∧
    FrameInv (startVisualization s) ∧
    (startVisualization s).browser.pending.length ≤ 1 ∧
    FrameInv (tick s) ∧
    FrameInv (connectToAudioElement s eid) :=
  ⟨stopVisualization_frameInv s h,
   stopVisualization_idem s,
   startVisualization_frameInv s h,
   (startVisualization_frameInv s h).1,
   tick_frameInv s h,
   connectToAudioElement_frameInv s eid h⟩

/-- C7, witness at the idle base state. -/
theorem render_loop_single_pending_witness :
    FrameInv (stopVisualization baseSys) ∧
    stopVisualization (stopVisualization baseSys) = stopVisualization baseSys ∧
    FrameInv (startVisualization baseSys) ∧
    (startVisualization baseSys).browser.pending.length ≤ 1 ∧
    FrameInv (tick baseSys) ∧
    FrameInv (connectToAudioElement baseSys 0) := by
  have hb : FrameInv baseSys := by
    constructor
    · simp [baseSys]
    · intro t ht
      simp [baseSys] at ht
  exact render_loop_single_pending baseSys 0 hb

/-! ## C2: attaching the same element twice is idempotent -/

/-- C2: when the visualizer is enabled and already bound and initialized
to element `eid`, a second `connectToAudioElement(eid)` creates no new
`MediaElementSource` splice (the element table, and in particular the
splice count, is untouched) and performs no state change other than
resuming the render loop when it is not running. -/
theorem attach_same_element_idempotent (s : Sys) (eid : Nat)
    (hen : s.vis.visualizerEnabled = true)
    (hsame : s.vis.audioElement = some eid)
    (hinit : s.vis.isInitialized = true) :
    (connectToAudioElement s eid).elems = s.elems ∧
    ((connectToAudioElement s eid).elems eid).splices = (s.elems eid).splices ∧
    connectToAudioElement s eid =
      (if s.vis.animationFrameId = none then startVisualization s else s) := by
  have heq : connectToAudioElement s eid =
      (if s.vis.animationFrameId = none then startVisualization s else s) := by
    unfold connectToAudioElement
    rw [if_pos hen, if_pos ⟨hsame, hinit⟩]
  refine ⟨?_, ?_, heq⟩
  · rw [heq]
    split
    · exact startVisualization_elems s
    · rfl
  · rw [heq]
    split
    · rw [startVisualization_elems]
    · rfl

/-- C2, witness at a freshly attached state (`connectedSys`, bound and
initialized to element 0, loop not running). -/
theorem attach_same_element_idempotent_witness :
    connectToAudioElement connectedSys 0 =
      (if connectedSys.vis.animationFrameId = none then startVisualization connectedSys
       else connectedSys) :=
  (attach_same_element_idempotent connectedSys 0 rfl rfl rfl).2.2

/-! ## C6: cleanup and playback state -/

/-- C6, counterexample: for a custom (non-official) node bound to the
internally created audio element, `cleanup` *does* modify playback — it
pauses the element (audio_visualizer.js:1283). -/
theorem cleanup_pauses_custom_audio_counterexample :
    (customSys.elems 0).paused = false ∧
    ((cleanup customSys).elems 0).paused = true := by
  constructor
  · rfl
  · rfl

/-- C6, amended: `cleanup` only stops the loop, disconnects and drops the
source, closes the audio context, drops the analyser, clears the
initialized flag and the element reference; it never touches any audio
element's playback state when the node is official (the element is owned
by the external player), but for a custom node it pauses the internally
created bound element and blanks its `src`. -/
theorem cleanup_playback_amended (s : Sys) (eid : Nat) :
    (s.vis.isOfficialNode = true → (cleanup s).elems = s.elems) ∧
    (s.vis.isOfficialNode = false → s.vis.audioElement = some eid →
      ((cleanup s).elems eid).paused = true ∧
      ((cleanup s).elems eid).srcCleared = true) ∧
    (cleanup s).vis.isInitialized = false ∧
    (cleanup s).vis.source = false ∧
    (cleanup s).vis.ctxOpen = false ∧
    (cleanup s).vis.analyser = none ∧
    (cleanup s).vis.audioElement = none ∧
    (cleanup s).browser.nextToken = s.browser.nextToken := by
  refine ⟨?_, ?_, ?_⟩
  · intro hoff
    cases hid : s.vis.animationFrameId <;>
      simp [cleanup, stopVisualization, hid, hoff]
  · intro hoff hae
    cases hid : s.vis.animationFrameId <;>
      simp [cleanup, stopVisualization, setElem, hid, hoff, hae]
  · cases hid : s.vis.animationFrameId <;>
      cases hoff : s.vis.isOfficialNode <;>
        rcases hae : s.vis.audioElement with _ | aid <;>
          simp [cleanup, stopVisualization, cancelFrame, setElem, hid, hoff, hae]

/-- C6 amended, witness: official-node cleanup at `connectedSys` leaves
every element (hence all playback state) unchanged. -/
theorem cleanup_playback_amended_witness :
    (cleanup connectedSys).elems = connectedSys.elems ∧
    ((cleanup customSys).elems 0).paused = true :=
  ⟨(cleanup_playback_amended connectedSys 0).1 rfl,
   ((cleanup_playback_amended customSys 0).2.1 rfl rfl).1⟩

/-! ## C8: zero-size canvases are not skipped -/

/-- Non-positive live rect sizes are ignored by the resize step. -/
theorem resizeCanvas_skip (v : Visualizer) (rW rH : ℚ) (h : ¬(0 < rW ∧ 0 < rH)) :
    resizeCanvas v rW rH = v := by
  unfold resizeCanvas
  rw [if_neg h]

/-- C8, counterexample: with a zero-width canvas (and a non-positive live
rect) the render tick still paints the background and dispatches the
renderer — `draw` has no size-based skip. -/
theorem zero_size_canvas_still_draws_counterexample :
    zeroWidthSys.vis.canvasW = 0 ∧
    (draw zeroWidthSys).log =
      [DrawEvent.fillBackground "#09090b",
       DrawEvent.gradientRadial (1 / 5),
       DrawEvent.gradientLinear (1 / 5),
       DrawEvent.rendererDispatch Mode.bars] := by
  constructor
  · rfl
  · have hg : zeroWidthSys.vis.hasCtx = true ∧
        zeroWidthSys.vis.analyser.isSome = true ∧
        zeroWidthSys.vis.hasCanvas = true := ⟨rfl, rfl, rfl⟩
    have hr : ¬(0 < zeroWidthSys.rectW ∧ 0 < zeroWidthSys.rectH) := by
      norm_num [zeroWidthSys, baseSys]
    unfold draw
    rw [if_pos hg, resizeCanvas_skip _ _ _ hr]
    norm_num [renderBackground, zeroWidthSys, baseSys, baseVis]

/-- C8, amended: a render tick is only skipped when ctx, analyser or
canvas is missing; canvas size plays no part.  When the live rect is
non-positive the resize step leaves the backing size unchanged — but the
background pass and the renderer dispatch still run, whatever the canvas
size (including zero). -/
theorem draw_skips_only_resize (s : Sys)
    (hctx : s.vis.hasCtx = true)
    (han : s.vis.analyser.isSome = true)
    (hcan : s.vis.hasCanvas = true)
    (hrect : ¬(0 < s.rectW ∧ 0 < s.rectH)) :
    (draw s).vis.canvasW = s.vis.canvasW ∧
    (draw s).vis.canvasH = s.vis.canvasH ∧
    (draw s).log = s.log ++ renderBackground s.vis ++ [DrawEvent.rendererDispatch s.vis.mode] := by
  unfold draw
  rw [if_pos ⟨hctx, han, hcan⟩, resizeCanvas_skip s.vis s.rectW s.rectH hrect]
  exact ⟨rfl, rfl, rfl⟩

/-- C8 amended, witness at the zero-width state. -/
theorem draw_skips_only_resize_witness :
    (draw zeroWidthSys).vis.canvasW = zeroWidthSys.vis.canvasW ∧
    (draw zeroWidthSys).vis.canvasH = zeroWidthSys.vis.canvasH ∧
    (draw zeroWidthSys).log =
      zeroWidthSys.log ++ renderBackground zeroWidthSys.vis ++
        [DrawEvent.rendererDispatch zeroWidthSys.vis.mode] :=
  draw_skips_only_resize zeroWidthSys rfl rfl rfl
    (by intro hc; exact absurd hc.1 (by norm_num [zeroWidthSys, baseSys]))

end AudioVisualizer
